import Mathlib

/-!
Shallow embedding of the CFB spread-model service (`main.py`): the embedded
input validator (`validate_input`), the discovery helper of `cfb_build_inputs`
(its `missing` computation), the odds converter, the normal-CDF kernel `_phi`
(parametrized by an `erf` function, since `math.erf` is an external library
routine), the quarter-Kelly rule `_kelly`, and the deterministic prediction
engine `run_cfb_model_v2`, together with a division-checked variant used to
reason about arithmetic faults.
-/

namespace CFB

/-- A JSON-ish value as Python sees it: a number (modelled exactly as a
rational), a boolean (distinct from numbers, as `isinstance(v, bool)` is
checked first), a string, or `None`. -/
inductive JVal where
  | num (q : ℚ)
  | boolean (b : Bool)
  | str (s : String)
  | null
deriving DecidableEq

/-- A Python dict of JSON values, as an association list. -/
abbrev Dict := List (String × JVal)

/-- A request payload: the optional `inputs` and `market` sections. -/
structure Payload where
  inputsSec : Option Dict
  marketSec : Option Dict

def EXPECTED_INPUT_KEYS : List String :=
  ["offense_home", "defense_home", "offense_away", "defense_away",
   "home_field_points", "rest_diff_days", "away_travel_miles",
   "qb_home_delta", "qb_away_delta", "key_injuries_home", "key_injuries_away",
   "wind_mph", "pass_rate_home", "pass_rate_away"]

def EXPECTED_MARKET_KEYS : List String := ["spread", "odds_home", "odds_away"]

/-- `isinstance(value, (int, float)) and not isinstance(value, bool)`. -/
def _is_number : JVal → Bool
  | .num _ => true
  | _ => false

/-- `_validate_numeric_field`: numeric and within `[min_val, max_val]`. -/
def _validate_numeric_field (v : JVal) (minVal maxVal : ℚ) : Bool :=
  if !(_is_number v) then false
  else
    match v with
    | .num q => decide (minVal ≤ q) && decide (q ≤ maxVal)
    | _ => false

/-- One key of one section passes: present and `_validate_numeric_field`. -/
def fieldOK (d : Dict) (k : String) (minVal maxVal : ℚ) : Bool :=
  match d.lookup k with
  | some v => _validate_numeric_field v minVal maxVal
  | none => false

/-- The embedded `validate_input` of `main.py`: both sections present, every
expected `inputs` key numeric in `[-9999, 9999]`, every expected `market`
key numeric in `[-20000, 20000]`. -/
def validate_input (p : Payload) : Bool :=
  match p.inputsSec, p.marketSec with
  | some inputs, some market =>
      (EXPECTED_INPUT_KEYS.all fun k => fieldOK inputs k (-9999) 9999) &&
        (EXPECTED_MARKET_KEYS.all fun k => fieldOK market k (-20000) 20000)
  | _, _ => false

/-- `sorted(expected_inputs)` as Python produces it. -/
def SORTED_INPUT_KEYS : List String :=
  ["away_travel_miles", "defense_away", "defense_home", "home_field_points",
   "key_injuries_away", "key_injuries_home", "offense_away", "offense_home",
   "pass_rate_away", "pass_rate_home", "qb_away_delta", "qb_home_delta",
   "rest_diff_days", "wind_mph"]

/-- `sorted(expected_market)` as Python produces it. -/
def SORTED_MARKET_KEYS : List String := ["odds_away", "odds_home", "spread"]

/-- `d.get(k) in (None, "")`: the key is absent, `None`, or the empty string. -/
def isAbsentOrEmpty : Option JVal → Bool
  | none => true
  | some .null => true
  | some (.str s) => s == ""
  | some _ => false

/-- The `missing` list computed by `cfb_build_inputs`: the sorted expected
inputs keys whose value is absent/`None`/empty, then the sorted market keys
likewise, each prefixed with `market.`. -/
def build_inputs_missing (p : Payload) : List String :=
  let inputs := p.inputsSec.getD []
  let market := p.marketSec.getD []
  (SORTED_INPUT_KEYS.filter fun k => isAbsentOrEmpty (inputs.lookup k)) ++
    ((SORTED_MARKET_KEYS.filter fun k => isAbsentOrEmpty (market.lookup k)).map
      fun k => "market." ++ k)

/-- The 14 numeric model inputs (floats modelled as reals). -/
structure Inputs where
  offense_home : ℝ
  defense_home : ℝ
  offense_away : ℝ
  defense_away : ℝ
  home_field_points : ℝ
  rest_diff_days : ℝ
  away_travel_miles : ℝ
  qb_home_delta : ℝ
  qb_away_delta : ℝ
  key_injuries_home : ℝ
  key_injuries_away : ℝ
  wind_mph : ℝ
  pass_rate_home : ℝ
  pass_rate_away : ℝ

/-- The 3 numeric market fields. -/
structure Market where
  spread : ℝ
  odds_home : ℝ
  odds_away : ℝ

/-- The validator bound on every `inputs` field. -/
def InBounds (i : Inputs) : Prop :=
  -9999 ≤ i.offense_home ∧ i.offense_home ≤ 9999 ∧
  -9999 ≤ i.defense_home ∧ i.defense_home ≤ 9999 ∧
  -9999 ≤ i.offense_away ∧ i.offense_away ≤ 9999 ∧
  -9999 ≤ i.defense_away ∧ i.defense_away ≤ 9999 ∧
  -9999 ≤ i.home_field_points ∧ i.home_field_points ≤ 9999 ∧
  -9999 ≤ i.rest_diff_days ∧ i.rest_diff_days ≤ 9999 ∧
  -9999 ≤ i.away_travel_miles ∧ i.away_travel_miles ≤ 9999 ∧
  -9999 ≤ i.qb_home_delta ∧ i.qb_home_delta ≤ 9999 ∧
  -9999 ≤ i.qb_away_delta ∧ i.qb_away_delta ≤ 9999 ∧
  -9999 ≤ i.key_injuries_home ∧ i.key_injuries_home ≤ 9999 ∧
  -9999 ≤ i.key_injuries_away ∧ i.key_injuries_away ≤ 9999 ∧
  -9999 ≤ i.wind_mph ∧ i.wind_mph ≤ 9999 ∧
  -9999 ≤ i.pass_rate_home ∧ i.pass_rate_home ≤ 9999 ∧
  -9999 ≤ i.pass_rate_away ∧ i.pass_rate_away ≤ 9999

/-- The validator bound on every `market` field. -/
def MarketBounds (m : Market) : Prop :=
  -20000 ≤ m.spread ∧ m.spread ≤ 20000 ∧
  -20000 ≤ m.odds_home ∧ m.odds_home ≤ 20000 ∧
  -20000 ≤ m.odds_away ∧ m.odds_away ≤ 20000

-- Model coefficients, fixed in `run_cfb_model_v2`.
noncomputable def b_matchup : ℝ := 7.0
noncomputable def b_hfa : ℝ := 1.2
noncomputable def b_rest : ℝ := 0.15
noncomputable def b_travel : ℝ := -0.10
noncomputable def b_qb : ℝ := 3.0
noncomputable def b_injury : ℝ := 0.35
noncomputable def b_weather : ℝ := 0.03
noncomputable def sigma_base : ℝ := 14.0
noncomputable def lam : ℝ := 0.834421

/-- Step 1: matchup gap. -/
noncomputable def matchup_gap (i : Inputs) : ℝ :=
  (i.offense_home - i.defense_away) - (i.offense_away - i.defense_home)

/-- Step 2: expected margin. -/
noncomputable def em (i : Inputs) : ℝ :=
  b_matchup * matchup_gap i
    + b_hfa
    + b_rest * i.rest_diff_days
    + b_travel * (i.away_travel_miles / 500.0)
    + b_qb * (i.qb_home_delta - i.qb_away_delta)
    + b_injury * (-i.key_injuries_home + i.key_injuries_away)
    + b_weather * (i.wind_mph * (i.pass_rate_home - i.pass_rate_away))

/-- `wind = max(0.0, wind_mph - 10.0)`. -/
noncomputable def windExcess (i : Inputs) : ℝ := max 0.0 (i.wind_mph - 10.0)

/-- `inj_total = key_injuries_home + key_injuries_away`. -/
noncomputable def injTotal (i : Inputs) : ℝ :=
  i.key_injuries_home + i.key_injuries_away

/-- Step 3: raw sigma. -/
noncomputable def sigma (i : Inputs) : ℝ :=
  sigma_base * (1 + 0.01 * windExcess i) * (1 + 0.03 * injTotal i)

/-- Step 4: effective sample size `min(12.0, 1/(1-lam))`. -/
noncomputable def n_eff : ℝ := min 12.0 (1.0 / (1.0 - lam))

/-- Adjusted sigma `sigma / sqrt(n_eff / 4)`. -/
noncomputable def sigma_adj (i : Inputs) : ℝ := sigma i / Real.sqrt (n_eff / 4.0)

/-- Step 5: standardized cover margin. -/
noncomputable def z_cover (i : Inputs) (m : Market) : ℝ :=
  (em i - m.spread) / sigma_adj i

/-- `_phi`: normal CDF through the (externally supplied) error function. -/
noncomputable def _phi (erf : ℝ → ℝ) (x : ℝ) : ℝ :=
  0.5 * (1.0 + erf (x / Real.sqrt 2.0))

noncomputable def p_home_cover (erf : ℝ → ℝ) (i : Inputs) (m : Market) : ℝ :=
  _phi erf (z_cover i m)

/-- Step 6: win probability. -/
noncomputable def p_home_win (erf : ℝ → ℝ) (i : Inputs) : ℝ :=
  _phi erf (em i / sigma_adj i)

noncomputable def p_away_win (erf : ℝ → ℝ) (i : Inputs) : ℝ :=
  1.0 - p_home_win erf i

/-- `_american_to_decimal`. -/
noncomputable def _american_to_decimal (odds : ℝ) : ℝ :=
  if 0 < odds then 1 + odds / 100.0
  else if odds < 0 then 1 + 100.0 / |odds|
  else 1.0

noncomputable def dec_home (m : Market) : ℝ := _american_to_decimal m.odds_home
noncomputable def dec_away (m : Market) : ℝ := _american_to_decimal m.odds_away

/-- Step 9: expected value of the home side per unit stake. -/
noncomputable def ev_home (erf : ℝ → ℝ) (i : Inputs) (m : Market) : ℝ :=
  p_home_win erf i * (dec_home m - 1.0) - (1.0 - p_home_win erf i)

/-- Step 9: expected value of the away side per unit stake. -/
noncomputable def ev_away (erf : ℝ → ℝ) (i : Inputs) (m : Market) : ℝ :=
  p_away_win erf i * (dec_away m - 1.0) - (1.0 - p_away_win erf i)

/-- Step 10: quarter-Kelly fraction. -/
noncomputable def _kelly (p dec : ℝ) : ℝ :=
  let b := dec - 1.0
  let q := 1.0 - p
  let fStar := if 0 < b then (b * p - q) / b else 0.0
  max 0.0 (0.25 * fStar)

/-- Step 8: reliability score, clamped to `[0, 0.95]`. -/
noncomputable def r2 (i : Inputs) (m : Market) : ℝ :=
  let raw := 0.65 * (1 - min 0.35 (sigma i / 20.0)) *
    (0.85 + 0.15 * min 1.0 (|em i - m.spread| / 7.0))
  max 0.0 (min 0.95 raw)

/-- Step 11: edge confidence. -/
noncomputable def edge_conf (i : Inputs) (m : Market) : ℝ :=
  max 0.0 (min 1.0 ((|z_cover i m| / 2.5) * r2 i m))

/-- The recommendation side. -/
inductive Side where
  | home
  | away
  | no_bet
deriving DecidableEq

/-- The recommendation record. -/
structure Rec where
  side : Side
  ev : ℝ
  fraction : ℝ

/-- The recommendation branch of `run_cfb_model_v2`, as a function of the two
expected values and the two quarter-Kelly fractions. -/
noncomputable def recOf (evH evA kH kA : ℝ) : Rec :=
  if 0.03 ≤ evH ∨ 0.03 ≤ evA then
    if evA ≤ evH then ⟨Side.home, evH, kH⟩ else ⟨Side.away, evA, kA⟩
  else ⟨Side.no_bet, 0.0, 0.0⟩

noncomputable def recommendation (erf : ℝ → ℝ) (i : Inputs) (m : Market) : Rec :=
  recOf (ev_home erf i m) (ev_away erf i m)
    (_kelly (p_home_win erf i) (dec_home m))
    (_kelly (p_away_win erf i) (dec_away m))

/-- The result record of `run_cfb_model_v2`. -/
structure ModelOutput where
  spread_pred : ℝ
  win_prob_home : ℝ
  win_prob_away : ℝ
  prob_home_cover : ℝ
  variance : ℝ
  ci68 : ℝ × ℝ
  ci95 : ℝ × ℝ
  r2_reliability : ℝ
  edge_confidence : ℝ
  rec_out : Rec

/-- The deterministic model `run_cfb_model_v2`, parametrized by the error
function used by `_phi`. -/
noncomputable def run_cfb_model_v2 (erf : ℝ → ℝ) (i : Inputs) (m : Market) :
    ModelOutput where
  spread_pred := em i
  win_prob_home := p_home_win erf i
  win_prob_away := p_away_win erf i
  prob_home_cover := p_home_cover erf i m
  variance := sigma_adj i ^ 2
  ci68 := (em i - sigma_adj i, em i + sigma_adj i)
  ci95 := (em i - 1.96 * sigma_adj i, em i + 1.96 * sigma_adj i)
  r2_reliability := r2 i m
  edge_confidence := edge_conf i m
  rec_out := recommendation erf i m

/-- Division that reports a zero divisor, to track `ZeroDivisionError`. -/
noncomputable def divC (x y : ℝ) : Option ℝ :=
  if y = 0 then none else some (x / y)

/-- `_american_to_decimal` with its division (by the odds magnitude) checked. -/
noncomputable def _american_to_decimal_checked (odds : ℝ) : Option ℝ :=
  if 0 < odds then (divC odds 100.0).map (fun t => 1 + t)
  else if odds < 0 then (divC 100.0 |odds|).map (fun t => 1 + t)
  else some 1.0

/-- `_kelly` with its division (by the Kelly denominator `b`) checked. -/
noncomputable def _kelly_checked (p dec : ℝ) : Option ℝ := do
  let b := dec - 1.0
  let q := 1.0 - p
  let fStar ← if 0 < b then divC (b * p - q) b else some 0.0
  pure (max 0.0 (0.25 * fStar))

/-- `run_cfb_model_v2` with every division whose divisor is not a fixed
non-zero constant checked: the two divisions by `sigma_adj`, the Kelly
denominators, and the odds magnitudes. Returns `none` exactly when the Python
code would raise a `ZeroDivisionError`. -/
noncomputable def run_cfb_model_v2_checked (erf : ℝ → ℝ) (i : Inputs)
    (m : Market) : Option ModelOutput := do
  let zc ← divC (em i - m.spread) (sigma_adj i)
  let zw ← divC (em i) (sigma_adj i)
  let dh ← _american_to_decimal_checked m.odds_home
  let da ← _american_to_decimal_checked m.odds_away
  let pw := _phi erf zw
  let evH := pw * (dh - 1.0) - (1.0 - pw)
  let evA := (1.0 - pw) * (da - 1.0) - (1.0 - (1.0 - pw))
  let kH ← _kelly_checked pw dh
  let kA ← _kelly_checked (1.0 - pw) da
  pure { spread_pred := em i
         win_prob_home := pw
         win_prob_away := 1.0 - pw
         prob_home_cover := _phi erf zc
         variance := sigma_adj i ^ 2
         ci68 := (em i - sigma_adj i, em i + sigma_adj i)
         ci95 := (em i - 1.96 * sigma_adj i, em i + 1.96 * sigma_adj i)
         r2_reliability := r2 i m
         edge_confidence := edge_conf i m
         rec_out := recOf evH evA kH kA }

/-- Extract the numeric value at a key, as `payload["inputs"][k]` does after
validation. -/
noncomputable def getNum (d : Dict) (k : String) : Option ℝ :=
  match d.lookup k with
  | some (.num q) => some (q : ℝ)
  | _ => none

/-- Read the 14 validated inputs fields out of the `inputs` dict. -/
noncomputable def parseInputs (d : Dict) : Option Inputs := do
  let oh ← getNum d "offense_home"
  let dh ← getNum d "defense_home"
  let oa ← getNum d "offense_away"
  let da ← getNum d "defense_away"
  let hfp ← getNum d "home_field_points"
  let rdd ← getNum d "rest_diff_days"
  let atm ← getNum d "away_travel_miles"
  let qh ← getNum d "qb_home_delta"
  let qa ← getNum d "qb_away_delta"
  let kih ← getNum d "key_injuries_home"
  let kia ← getNum d "key_injuries_away"
  let wm ← getNum d "wind_mph"
  let prh ← getNum d "pass_rate_home"
  let pra ← getNum d "pass_rate_away"
  pure ⟨oh, dh, oa, da, hfp, rdd, atm, qh, qa, kih, kia, wm, prh, pra⟩

/-- Read the 3 validated market fields out of the `market` dict. -/
noncomputable def parseMarket (d : Dict) : Option Market := do
  let s ← getNum d "spread"
  let oh ← getNum d "odds_home"
  let oa ← getNum d "odds_away"
  pure ⟨s, oh, oa⟩

/-- Read a whole validated payload. -/
noncomputable def parsePayload (p : Payload) : Option (Inputs × Market) := do
  let di ← p.inputsSec
  let dm ← p.marketSec
  let i ← parseInputs di
  let m ← parseMarket dm
  pure (i, m)

/-! ### Helper lemmas -/

theorem kelly_unfold (p dec : ℝ) :
    _kelly p dec = max 0.0 (0.25 *
      (if 0 < dec - 1.0 then ((dec - 1.0) * p - (1.0 - p)) / (dec - 1.0)
       else 0.0)) := rfl

theorem rec_out_run (erf : ℝ → ℝ) (i : Inputs) (m : Market) :
    (run_cfb_model_v2 erf i m).rec_out =
      recOf (ev_home erf i m) (ev_away erf i m)
        (_kelly (p_home_win erf i) (dec_home m))
        (_kelly (p_away_win erf i) (dec_away m)) := rfl

theorem fieldOK_iff (d : Dict) (k : String) (lo hi : ℚ) :
    fieldOK d k lo hi = true ↔
      ∃ q : ℚ, d.lookup k = some (JVal.num q) ∧ lo ≤ q ∧ q ≤ hi := by
  unfold fieldOK _validate_numeric_field _is_number
  cases h : d.lookup k with
  | none => simp
  | some v => cases v <;> simp

/-! ### C5: the validator contract -/

theorem validate_input_characterization (p : Payload) :
    validate_input p = true ↔
      ∃ di dm, p.inputsSec = some di ∧ p.marketSec = some dm ∧
        (∀ k ∈ EXPECTED_INPUT_KEYS, ∃ q : ℚ,
          di.lookup k = some (JVal.num q) ∧ -9999 ≤ q ∧ q ≤ 9999) ∧
        (∀ k ∈ EXPECTED_MARKET_KEYS, ∃ q : ℚ,
          dm.lookup k = some (JVal.num q) ∧ -20000 ≤ q ∧ q ≤ 20000) := by
  obtain ⟨is, ms⟩ := p
  cases is <;> cases ms <;>
    simp [validate_input, List.all_eq_true, fieldOK_iff]

/-- C5: `validate_input` returns `True` iff both sections are present, each of
the 14 required `inputs` fields is a non-boolean number in `[-9999, 9999]`,
and each of the 3 required `market` fields is a non-boolean number in
`[-20000, 20000]`; any missing, boolean, non-numeric, or out-of-range required
field makes it return `False`. -/
theorem claim5_validate_iff (p : Payload) :
    validate_input p = true ↔
      ∃ di dm, p.inputsSec = some di ∧ p.marketSec = some dm ∧
        (∀ k ∈ EXPECTED_INPUT_KEYS, ∃ q : ℚ,
          di.lookup k = some (JVal.num q) ∧ -9999 ≤ q ∧ q ≤ 9999) ∧
        (∀ k ∈ EXPECTED_MARKET_KEYS, ∃ q : ℚ,
          dm.lookup k = some (JVal.num q) ∧ -20000 ≤ q ∧ q ≤ 20000) :=
  validate_input_characterization p

/-- A fully valid concrete payload. -/
def c5GoodPayload : Payload :=
  ⟨some [("offense_home", .num 0), ("defense_home", .num 0),
         ("offense_away", .num 0), ("defense_away", .num 0),
         ("home_field_points", .num 0), ("rest_diff_days", .num 0),
         ("away_travel_miles", .num 0), ("qb_home_delta", .num 0),
         ("qb_away_delta", .num 0), ("key_injuries_home", .num 0),
         ("key_injuries_away", .num 0), ("wind_mph", .num 0),
         ("pass_rate_home", .num 0), ("pass_rate_away", .num 0)],
   some [("spread", .num 0), ("odds_home", .num 0), ("odds_away", .num 0)]⟩

/-- Witness for C5: a concrete payload satisfying the right-hand side is
accepted. -/
theorem claim5_witness : validate_input c5GoodPayload = true := by
  refine (claim5_validate_iff c5GoodPayload).mpr ⟨_, _, rfl, rfl, ?_, ?_⟩ <;>
    (intro k hk; fin_cases hk <;> exact ⟨0, rfl, by norm_num, by norm_num⟩)

/-! ### C6: the recommendation policy -/

/-- C6: the recommendation is `no_bet` with EV 0 and fraction 0 when both
sides have expected value below 0.03; otherwise it is the side with the
strictly higher EV (ties broken toward home), reporting that side's EV and
quarter-Kelly fraction. -/
theorem claim6_recommendation_policy (erf : ℝ → ℝ) (i : Inputs) (m : Market) :
    (ev_home erf i m < 0.03 → ev_away erf i m < 0.03 →
      (run_cfb_model_v2 erf i m).rec_out = ⟨Side.no_bet, 0.0, 0.0⟩) ∧
    ((0.03 ≤ ev_home erf i m ∨ 0.03 ≤ ev_away erf i m) →
      ev_away erf i m ≤ ev_home erf i m →
      (run_cfb_model_v2 erf i m).rec_out =
        ⟨Side.home, ev_home erf i m, _kelly (p_home_win erf i) (dec_home m)⟩) ∧
    ((0.03 ≤ ev_home erf i m ∨ 0.03 ≤ ev_away erf i m) →
      ev_home erf i m < ev_away erf i m →
      (run_cfb_model_v2 erf i m).rec_out =
        ⟨Side.away, ev_away erf i m, _kelly (p_away_win erf i) (dec_away m)⟩) := by
  rw [rec_out_run]
  refine ⟨fun h1 h2 => ?_, fun hc hle => ?_, fun hc hlt => ?_⟩
  · unfold recOf
    rw [if_neg (not_or.mpr ⟨not_le.mpr h1, not_le.mpr h2⟩)]
  · unfold recOf
    rw [if_pos hc, if_pos hle]
  · unfold recOf
    rw [if_pos hc, if_neg (not_le.mpr hlt)]

def c6WitInp : Inputs := ⟨0, 0, 0, 0, 0, 0, 0, 0, 0, 0, 0, 0, 0, 0⟩
def c6WitMkt : Market := ⟨0, 0, 0⟩

/-- Witness for C6: with zero odds on both sides both EVs are `-0.5`, so the
policy yields `no_bet`. -/
theorem claim6_witness :
    (run_cfb_model_v2 (fun _ => 0) c6WitInp c6WitMkt).rec_out =
      ⟨Side.no_bet, 0.0, 0.0⟩ := by
  refine (claim6_recommendation_policy (fun _ => 0) c6WitInp c6WitMkt).1 ?_ ?_ <;>
    norm_num [ev_home, ev_away, p_home_win, p_away_win, _phi, dec_home,
      dec_away, _american_to_decimal, c6WitMkt]

/-! ### C7: the quarter-Kelly rule -/

/-- C7: for every probability `p ∈ [0, 1]` and decimal odds `dec`, the
quarter-Kelly fraction is never negative; it is `0` whenever `b = dec - 1 ≤ 0`
and whenever the Kelly numerator `b*p - (1-p)` is non-positive; otherwise it
equals `0.25 * (b*p - (1-p)) / b`. -/
theorem claim7_kelly (p dec : ℝ) (hp0 : 0 ≤ p) (hp1 : p ≤ 1) :
    0 ≤ _kelly p dec ∧
    (dec - 1.0 ≤ 0 → _kelly p dec = 0) ∧
    ((dec - 1.0) * p - (1 - p) ≤ 0 → _kelly p dec = 0) ∧
    (0 < dec - 1.0 → 0 < (dec - 1.0) * p - (1 - p) →
      _kelly p dec = 0.25 * (((dec - 1.0) * p - (1 - p)) / (dec - 1.0))) := by
  rw [kelly_unfold]
  refine ⟨le_trans (by norm_num) (le_max_left 0.0 _), fun hb => ?_,
    fun hnum => ?_, fun hb hnum => ?_⟩
  · rw [if_neg (not_lt.mpr hb)]
    norm_num
  · by_cases hb : 0 < dec - 1.0
    · rw [if_pos hb]
      have hd : ((dec - 1.0) * p - (1.0 - p)) / (dec - 1.0) ≤ 0 :=
        div_nonpos_of_nonpos_of_nonneg (by linarith) (le_of_lt hb)
      rw [max_eq_left (by linarith)]
      norm_num
    · rw [if_neg hb]
      norm_num
  · rw [if_pos hb]
    have h5 : 0 < ((dec - 1.0) * p - (1.0 - p)) / (dec - 1.0) :=
      div_pos (by linarith) hb
    rw [max_eq_right (by linarith)]
    norm_num

/-- Witness for C7: at `p = 0.5`, `dec = 3` the positive-numerator branch
applies. -/
theorem claim7_witness :
    _kelly 0.5 3.0 =
      0.25 * (((3.0 - 1.0) * 0.5 - (1 - 0.5)) / (3.0 - 1.0)) :=
  (claim7_kelly 0.5 3.0 (by norm_num) (by norm_num)).2.2.2
    (by norm_num) (by norm_num)

/-! ### C9: the discovery operation -/

/-- C9: `cfb_build_inputs` checks exactly the validator's required-field
lists, and its `missing` list contains precisely the required field names
(market names prefixed with `market.`) whose value is absent, null, or the
empty string. -/
theorem claim9_build_inputs :
    (SORTED_INPUT_KEYS.Perm EXPECTED_INPUT_KEYS ∧
     SORTED_MARKET_KEYS.Perm EXPECTED_MARKET_KEYS) ∧
    ∀ (p : Payload) (k : String),
      k ∈ build_inputs_missing p ↔
        ((k ∈ EXPECTED_INPUT_KEYS ∧
            isAbsentOrEmpty ((p.inputsSec.getD []).lookup k) = true) ∨
         (∃ km ∈ EXPECTED_MARKET_KEYS, k = "market." ++ km ∧
            isAbsentOrEmpty ((p.marketSec.getD []).lookup km) = true)) := by
  have hpi : SORTED_INPUT_KEYS.Perm EXPECTED_INPUT_KEYS := by decide
  have hpm : SORTED_MARKET_KEYS.Perm EXPECTED_MARKET_KEYS := by decide
  refine ⟨⟨hpi, hpm⟩, fun p k => ?_⟩
  simp only [build_inputs_missing, List.mem_append, List.mem_filter,
    List.mem_map, hpi.mem_iff, hpm.mem_iff]
  constructor
  · rintro (⟨hk, hv⟩ | ⟨a, ⟨ha, hv⟩, rfl⟩)
    · exact Or.inl ⟨hk, hv⟩
    · exact Or.inr ⟨a, ha, rfl, hv⟩
  · rintro (⟨hk, hv⟩ | ⟨a, ha, rfl, hv⟩)
    · exact Or.inl ⟨hk, hv⟩
    · exact Or.inr ⟨a, ⟨ha, hv⟩, rfl⟩

/-- Witness for C9: on an empty-sections payload, `wind_mph` is reported
missing. -/
theorem claim9_witness :
    "wind_mph" ∈ build_inputs_missing ⟨some [], some []⟩ :=
  (claim9_build_inputs.2 ⟨some [], some []⟩ "wind_mph").mpr
    (Or.inl ⟨by decide, by decide⟩)

/-! ### Numeric helper lemmas for the model -/

theorem n_eff_eq : n_eff = 1000000 / 165579 := by
  unfold n_eff lam
  rw [min_eq_right (by norm_num)]
  norm_num

theorem n_eff_div4 : n_eff / 4.0 = 250000 / 165579 := by
  rw [n_eff_eq]; norm_num

theorem sqrtq_pos : 0 < Real.sqrt (n_eff / 4.0) := by
  rw [Real.sqrt_pos, n_eff_div4]; norm_num

theorem sqrtq_lb : (1.2287 : ℝ) ≤ Real.sqrt (n_eff / 4.0) := by
  rw [n_eff_div4]
  exact (Real.le_sqrt (by norm_num) (by norm_num)).mpr (by norm_num)

theorem sqrtq_ub : Real.sqrt (n_eff / 4.0) ≤ 1.2288 := by
  rw [n_eff_div4]
  exact Real.sqrt_le_iff.mpr ⟨by norm_num, by norm_num⟩

theorem windExcess_nonneg (i : Inputs) : 0 ≤ windExcess i :=
  le_trans (by norm_num) (le_max_left 0.0 _)

theorem windExcess_eq_zero {i : Inputs} (h : i.wind_mph ≤ 10.0) :
    windExcess i = 0 := by
  unfold windExcess
  rw [max_eq_left (by linarith)]
  norm_num

theorem windFactor_pos (i : Inputs) : 0 < 1 + 0.01 * windExcess i := by
  have h := windExcess_nonneg i
  nlinarith

theorem sigma_ne_zero (i : Inputs) (hj : 1 + 0.03 * injTotal i ≠ 0) :
    sigma i ≠ 0 := by
  unfold sigma
  exact mul_ne_zero
    (mul_ne_zero (by unfold sigma_base; norm_num) (ne_of_gt (windFactor_pos i)))
    hj

theorem sigma_adj_ne_zero (i : Inputs) (hσ : sigma i ≠ 0) : sigma_adj i ≠ 0 :=
  div_ne_zero hσ (ne_of_gt sqrtq_pos)

theorem sigma_adj_sq (i : Inputs) :
    sigma_adj i ^ 2 = sigma i ^ 2 / (n_eff / 4.0) := by
  unfold sigma_adj
  rw [div_pow, Real.sq_sqrt (by rw [n_eff_div4]; norm_num)]

/-! ### C3: strict positivity of the reported variance -/

/-- C3 (amended): for every input within the validator bounds whose injury
multiplier `1 + 0.03*(key_injuries_home + key_injuries_away)` is non-zero,
the variance reported by `run_cfb_model_v2` is strictly positive. (Unamended,
the claim fails when the injury multiplier vanishes.) -/
theorem claim3_variance_pos_amended (erf : ℝ → ℝ) (i : Inputs) (m : Market)
    (hib : InBounds i) (hmb : MarketBounds m)
    (hj : 1 + 0.03 * injTotal i ≠ 0) :
    0 < (run_cfb_model_v2 erf i m).variance := by
  have hσ : sigma_adj i ≠ 0 := sigma_adj_ne_zero i (sigma_ne_zero i hj)
  have hv : (run_cfb_model_v2 erf i m).variance = sigma_adj i ^ 2 := rfl
  rw [hv]
  exact pow_two_pos_of_ne_zero hσ

noncomputable def c3WitInp : Inputs := ⟨0, 0, 0, 0, 0, 0, 0, 0, 0, 0, 0, 0, 0, 0⟩
noncomputable def c3WitMkt : Market := ⟨0, 0, 0⟩

/-- Witness for C3 (amended): at the all-zero in-bounds input the variance is
positive. -/
theorem claim3_witness :
    0 < (run_cfb_model_v2 (fun _ => 0) c3WitInp c3WitMkt).variance :=
  claim3_variance_pos_amended _ c3WitInp c3WitMkt
    (by norm_num [InBounds, c3WitInp])
    (by norm_num [MarketBounds, c3WitMkt])
    (by norm_num [injTotal, c3WitInp])

noncomputable def c3BadInp : Inputs :=
  ⟨0, 0, 0, 0, 0, 0, 0, 0, 0, -100/3, 0, 0, 0, 0⟩
noncomputable def c3BadMkt : Market := ⟨0, 0, 0⟩

theorem sigma_c3Bad : sigma c3BadInp = 0 := by
  unfold sigma injTotal
  rw [windExcess_eq_zero (by norm_num [c3BadInp])]
  norm_num [c3BadInp]

/-- Counterexample to C3 as stated: `key_injuries_home = -100/3` is within
`[-9999, 9999]`, yet the reported variance is `0`, not strictly positive. -/
theorem claim3_counterexample :
    InBounds c3BadInp ∧ MarketBounds c3BadMkt ∧
      ¬ (0 < (run_cfb_model_v2 (fun _ => 0) c3BadInp c3BadMkt).variance) := by
  refine ⟨by norm_num [InBounds, c3BadInp],
    by norm_num [MarketBounds, c3BadMkt], ?_⟩
  have hv : (run_cfb_model_v2 (fun _ => 0) c3BadInp c3BadMkt).variance =
      sigma_adj c3BadInp ^ 2 := rfl
  have h2 : sigma_adj c3BadInp = 0 := by
    unfold sigma_adj
    rw [sigma_c3Bad, zero_div]
  rw [hv, h2]
  norm_num

/-! ### C4: monotonicity of the raw sigma -/

/-- C4 (amended): wind at or below 10 mph contributes no inflation (raw sigma
at any `wind_mph ≤ 10` equals raw sigma at `wind_mph = 0`); provided the
injury multiplier is positive, `wind_mph = 10.0001` gives a strictly larger
raw sigma than `wind_mph = 10`; and increasing the injury counts never
decreases raw sigma. (Unamended, the strict-increase part fails when the
injury multiplier is negative.) -/
theorem claim4_sigma_monotone_amended (i : Inputs) (hib : InBounds i) :
    (∀ w : ℝ, w ≤ 10.0 →
      sigma { i with wind_mph := w } = sigma { i with wind_mph := 0 }) ∧
    (0 < 1 + 0.03 * injTotal i →
      sigma { i with wind_mph := 10.0 } < sigma { i with wind_mph := 10.0001 }) ∧
    (∀ dh da : ℝ, 0 ≤ dh → 0 ≤ da →
      sigma i ≤ sigma { i with
        key_injuries_home := i.key_injuries_home + dh,
        key_injuries_away := i.key_injuries_away + da }) := by
  refine ⟨fun w hw => ?_, fun hj => ?_, fun dh da h1 h2 => ?_⟩
  · have hA : windExcess { i with wind_mph := w } = 0 :=
      windExcess_eq_zero (by simpa using hw)
    have hB : windExcess { i with wind_mph := (0 : ℝ) } = 0 :=
      windExcess_eq_zero (by norm_num)
    unfold sigma
    rw [hA, hB]
    rfl
  · have hA : windExcess { i with wind_mph := (10.0 : ℝ) } = 0 :=
      windExcess_eq_zero (by norm_num)
    have hB : windExcess { i with wind_mph := (10.0001 : ℝ) } = 0.0001 := by
      show max 0.0 ((10.0001 : ℝ) - 10.0) = 0.0001
      rw [max_eq_right (by norm_num)]
      norm_num
    have hIA : injTotal { i with wind_mph := (10.0 : ℝ) } = injTotal i := rfl
    have hIB : injTotal { i with wind_mph := (10.0001 : ℝ) } = injTotal i := rfl
    unfold sigma
    rw [hA, hB, hIA, hIB]
    unfold sigma_base
    nlinarith
  · have hW : windExcess { i with
        key_injuries_home := i.key_injuries_home + dh,
        key_injuries_away := i.key_injuries_away + da } = windExcess i := rfl
    have hI : injTotal { i with
        key_injuries_home := i.key_injuries_home + dh,
        key_injuries_away := i.key_injuries_away + da } =
        injTotal i + (dh + da) := by
      unfold injTotal
      show i.key_injuries_home + dh + (i.key_injuries_away + da) = _
      ring
    unfold sigma
    rw [hW, hI]
    unfold sigma_base
    have hwf := windFactor_pos i
    nlinarith [mul_nonneg (le_of_lt hwf) (add_nonneg h1 h2)]

noncomputable def c4WitInp : Inputs := ⟨0, 0, 0, 0, 0, 0, 0, 0, 0, 0, 0, 0, 0, 0⟩

/-- Witness for C4 (amended): at the all-zero input, raw sigma at wind 5 mph
equals raw sigma at wind 0. -/
theorem claim4_witness :
    sigma { c4WitInp with wind_mph := (5 : ℝ) } =
      sigma { c4WitInp with wind_mph := 0 } :=
  (claim4_sigma_monotone_amended c4WitInp (by norm_num [InBounds, c4WitInp])).1
    5 (by norm_num)

noncomputable def c4BadInp : Inputs := ⟨0, 0, 0, 0, 0, 0, 0, 0, 0, -34, 0, 0, 0, 0⟩

/-- Counterexample to C4 as stated: with `key_injuries_home = -34` (within
bounds) the injury multiplier is negative, and raw sigma at
`wind_mph = 10.0001` is strictly smaller than at `wind_mph = 10`, not larger. -/
theorem claim4_counterexample :
    InBounds c4BadInp ∧
      ¬ (sigma { c4BadInp with wind_mph := (10.0 : ℝ) } <
          sigma { c4BadInp with wind_mph := (10.0001 : ℝ) }) := by
  refine ⟨by norm_num [InBounds, c4BadInp], ?_⟩
  have hA : sigma { c4BadInp with wind_mph := (10.0 : ℝ) } = -0.28 := by
    show sigma_base * (1 + 0.01 * max 0.0 ((10.0 : ℝ) - 10.0)) *
      (1 + 0.03 * ((-34 : ℝ) + 0)) = -0.28
    rw [max_eq_left (by norm_num)]
    unfold sigma_base
    norm_num
  have hB : sigma { c4BadInp with wind_mph := (10.0001 : ℝ) } = -0.28000028 := by
    show sigma_base * (1 + 0.01 * max 0.0 ((10.0001 : ℝ) - 10.0)) *
      (1 + 0.03 * ((-34 : ℝ) + 0)) = -0.28000028
    rw [max_eq_right (by norm_num)]
    unfold sigma_base
    norm_num
  rw [hA, hB]
  norm_num

/-! ### C10: the reliability bound -/

theorem r2_unfold (i : Inputs) (m : Market) :
    r2 i m = max 0.0 (min 0.95 (0.65 * (1 - min 0.35 (sigma i / 20.0)) *
      (0.85 + 0.15 * min 1.0 (|em i - m.spread| / 7.0)))) := rfl

/-- C10 (amended): for every in-bounds input whose raw sigma is non-negative,
the reported `r2_reliability` never exceeds 0.65 — the formula is bounded by
0.65 before clamping, so the upper clamp at 0.95 never binds. (Unamended, the
claim fails when raw sigma is negative.) -/
theorem claim10_r2_bound_amended (erf : ℝ → ℝ) (i : Inputs) (m : Market)
    (hib : InBounds i) (hmb : MarketBounds m) (hσ : 0 ≤ sigma i) :
    (run_cfb_model_v2 erf i m).r2_reliability ≤ 0.65 := by
  have hr : (run_cfb_model_v2 erf i m).r2_reliability = r2 i m := rfl
  rw [hr, r2_unfold]
  have hf1l : 0 ≤ min 0.35 (sigma i / 20.0) :=
    le_min (by norm_num) (by positivity)
  have hf1u : min 0.35 (sigma i / 20.0) ≤ 0.35 := min_le_left _ _
  have hg0 : 0 ≤ min 1.0 (|em i - m.spread| / 7.0) :=
    le_min (by norm_num) (by positivity)
  have hg1 : min 1.0 (|em i - m.spread| / 7.0) ≤ 1.0 := min_le_left _ _
  have hraw : 0.65 * (1 - min 0.35 (sigma i / 20.0)) *
      (0.85 + 0.15 * min 1.0 (|em i - m.spread| / 7.0)) ≤ 0.65 := by
    nlinarith
  exact max_le (by norm_num) (le_trans (min_le_right _ _) hraw)

noncomputable def c10WitInp : Inputs := ⟨0, 0, 0, 0, 0, 0, 0, 0, 0, 0, 0, 0, 0, 0⟩
noncomputable def c10WitMkt : Market := ⟨0, 0, 0⟩

/-- Witness for C10 (amended): at the all-zero input, raw sigma is 14 ≥ 0 and
the reliability is at most 0.65. -/
theorem claim10_witness :
    (run_cfb_model_v2 (fun _ => 0) c10WitInp c10WitMkt).r2_reliability ≤ 0.65 :=
  claim10_r2_bound_amended _ _ _
    (by norm_num [InBounds, c10WitInp])
    (by norm_num [MarketBounds, c10WitMkt])
    (by
      have h : sigma c10WitInp = 14.0 := by
        unfold sigma sigma_base injTotal
        rw [windExcess_eq_zero (by norm_num [c10WitInp])]
        norm_num [c10WitInp]
      rw [h]
      norm_num)

noncomputable def c10BadInp : Inputs :=
  ⟨0, 0, 0, 0, 0, 0, 0, 0, 0, -100, 0, 0, 0, 0⟩
noncomputable def c10BadMkt : Market := ⟨0, 0, 0⟩

/-- Counterexample to C10 as stated: with `key_injuries_home = -100` (within
bounds) raw sigma is `-28`, the unclamped formula reaches 1.56, and the
reported reliability is 0.95 > 0.65. -/
theorem claim10_counterexample :
    InBounds c10BadInp ∧ MarketBounds c10BadMkt ∧
      0.65 < (run_cfb_model_v2 (fun _ => 0) c10BadInp c10BadMkt).r2_reliability := by
  refine ⟨by norm_num [InBounds, c10BadInp],
    by norm_num [MarketBounds, c10BadMkt], ?_⟩
  have hσ : sigma c10BadInp = -28 := by
    unfold sigma sigma_base injTotal
    rw [windExcess_eq_zero (by norm_num [c10BadInp])]
    norm_num [c10BadInp]
  have hem : em c10BadInp = 36.2 := by
    unfold em matchup_gap b_matchup b_hfa b_rest b_travel b_qb b_injury b_weather
    norm_num [c10BadInp]
  have hr : (run_cfb_model_v2 (fun _ => 0) c10BadInp c10BadMkt).r2_reliability =
      r2 c10BadInp c10BadMkt := rfl
  have hsp : c10BadMkt.spread = 0 := rfl
  rw [hr, r2_unfold, hσ, hem, hsp]
  have habs : |(36.2 : ℝ) - 0| = 36.2 := by
    rw [sub_zero, abs_of_nonneg (by norm_num)]
  rw [habs]
  rw [min_eq_right (by norm_num : ((-28 : ℝ)) / 20.0 ≤ 0.35)]
  rw [min_eq_left (by norm_num : (1.0 : ℝ) ≤ 36.2 / 7.0)]
  rw [min_eq_left (by norm_num), max_eq_right (by norm_num)]
  norm_num

/-! ### C8: the zero-odds edge case -/

theorem p_home_win_le_one (erf : ℝ → ℝ) (i : Inputs) (hub : ∀ x, erf x ≤ 1) :
    p_home_win erf i ≤ 1 := by
  unfold p_home_win _phi
  have h := hub (em i / sigma_adj i / Real.sqrt 2.0)
  linarith

/-- C8: with `odds_home = 0` the home decimal odds are 1, home EV equals
`-(1 - p_home_win)` and is never positive, the recommendation side is never
`home`, and if the away EV is also non-positive the recommendation is
`no_bet`. (Uses that the error function is bounded by 1, so
`p_home_win ≤ 1`.) -/
theorem claim8_zero_odds (erf : ℝ → ℝ) (i : Inputs) (m : Market)
    (hub : ∀ x, erf x ≤ 1) (h0 : m.odds_home = 0) :
    dec_home m = 1 ∧
    ev_home erf i m = -(1 - p_home_win erf i) ∧
    ev_home erf i m ≤ 0 ∧
    (run_cfb_model_v2 erf i m).rec_out.side ≠ Side.home ∧
    (ev_away erf i m ≤ 0 →
      (run_cfb_model_v2 erf i m).rec_out.side = Side.no_bet) := by
  have hd : dec_home m = 1 := by
    unfold dec_home _american_to_decimal
    rw [h0]
    norm_num
  have hp1 : p_home_win erf i ≤ 1 := p_home_win_le_one erf i hub
  have hev : ev_home erf i m = -(1 - p_home_win erf i) := by
    unfold ev_home
    rw [hd]
    ring
  have hev0 : ev_home erf i m ≤ 0 := by rw [hev]; linarith
  refine ⟨hd, hev, hev0, ?_, fun ha => ?_⟩
  · rw [rec_out_run]
    unfold recOf
    split_ifs with hc hle
    · exfalso
      rcases hc with h | h
      · linarith
      · linarith [le_trans h hle]
    · simp
    · simp
  · rw [rec_out_run]
    unfold recOf
    rw [if_neg (not_or.mpr ⟨not_le.mpr (by linarith), not_le.mpr (by linarith)⟩)]

noncomputable def c8WitInp : Inputs := ⟨0, 0, 0, 0, 0, 0, 0, 0, 0, 0, 0, 0, 0, 0⟩
noncomputable def c8WitMkt : Market := ⟨0, 0, 0⟩

/-- Witness for C8: with zero odds on both sides and a bounded error function
the recommendation is `no_bet`. -/
theorem claim8_witness :
    (run_cfb_model_v2 (fun _ => 0) c8WitInp c8WitMkt).rec_out.side =
      Side.no_bet :=
  (claim8_zero_odds (fun _ => 0) c8WitInp c8WitMkt (fun _ => by norm_num)
    rfl).2.2.2.2
    (by norm_num [ev_away, p_away_win, p_home_win, _phi, dec_away,
      _american_to_decimal, c8WitMkt])

/-! ### C2: reachability of arithmetic faults -/

theorem divC_eq {y : ℝ} (x : ℝ) (h : y ≠ 0) : divC x y = some (x / y) := by
  simp [divC, h]

theorem atd_checked_eq (o : ℝ) :
    _american_to_decimal_checked o = some (_american_to_decimal o) := by
  unfold _american_to_decimal_checked _american_to_decimal
  split_ifs with h1 h2
  · rw [divC_eq o (by norm_num)]
    rfl
  · rw [divC_eq 100.0 (ne_of_gt (abs_pos.mpr (ne_of_lt h2)))]
    rfl
  · rfl

theorem kelly_checked_eq (p dec : ℝ) :
    _kelly_checked p dec = some (_kelly p dec) := by
  have h : _kelly_checked p dec =
      if 0 < dec - 1.0 then
        Option.bind (divC ((dec - 1.0) * p - (1.0 - p)) (dec - 1.0))
          (fun fStar => some (max 0.0 (0.25 * fStar)))
      else Option.bind (some 0.0)
          (fun fStar => some (max 0.0 (0.25 * fStar))) := rfl
  rw [h, kelly_unfold]
  split_ifs with hb
  · rw [divC_eq _ (ne_of_gt hb)]
    rfl
  · rfl

theorem checked_eq_run (erf : ℝ → ℝ) (i : Inputs) (m : Market)
    (hs : sigma_adj i ≠ 0) :
    run_cfb_model_v2_checked erf i m = some (run_cfb_model_v2 erf i m) := by
  unfold run_cfb_model_v2_checked
  rw [divC_eq (em i - m.spread) hs, divC_eq (em i) hs,
    atd_checked_eq, atd_checked_eq]
  simp only [Option.bind_eq_bind', Option.some_bind']
  rw [kelly_checked_eq, kelly_checked_eq]
  simp only [Option.bind_eq_bind', Option.some_bind']
  rfl

theorem getNum_of_fieldOK {d : Dict} {k : String} {lo hi : ℚ}
    (h : fieldOK d k lo hi = true) : ∃ x : ℝ, getNum d k = some x := by
  obtain ⟨q, hq, -, -⟩ := (fieldOK_iff d k lo hi).mp h
  exact ⟨(q : ℝ), by unfold getNum; rw [hq]⟩

/-- C2 (amended): every payload accepted by `validate_input` parses into the
17 numeric fields, and provided the injury multiplier
`1 + 0.03*(key_injuries_home + key_injuries_away)` is non-zero, every divisor
in `run_cfb_model_v2` (the adjusted sigma, the Kelly denominator, the odds
magnitude) is non-zero and the checked run completes without an arithmetic
fault. (Unamended, the claim fails: a valid payload can zero the injury
multiplier and hence the `z_cover` divisor.) -/
theorem claim2_no_arith_fault_amended (p : Payload)
    (hv : validate_input p = true) :
    (∃ im, parsePayload p = some im) ∧
    ∀ (i : Inputs) (m : Market) (erf : ℝ → ℝ),
      parsePayload p = some (i, m) →
      1 + 0.03 * injTotal i ≠ 0 →
      run_cfb_model_v2_checked erf i m = some (run_cfb_model_v2 erf i m) := by
  constructor
  · obtain ⟨is, ms⟩ := p
    cases is with
    | none => simp [validate_input] at hv
    | some di =>
      cases ms with
      | none => simp [validate_input] at hv
      | some dm =>
        rw [show validate_input ⟨some di, some dm⟩ =
            ((EXPECTED_INPUT_KEYS.all fun k => fieldOK di k (-9999) 9999) &&
              (EXPECTED_MARKET_KEYS.all fun k => fieldOK dm k (-20000) 20000))
            from rfl, Bool.and_eq_true, List.all_eq_true, List.all_eq_true]
          at hv
        obtain ⟨x1, h1⟩ := getNum_of_fieldOK (hv.1 "offense_home" (by simp [EXPECTED_INPUT_KEYS]))
        obtain ⟨x2, h2⟩ := getNum_of_fieldOK (hv.1 "defense_home" (by simp [EXPECTED_INPUT_KEYS]))
        obtain ⟨x3, h3⟩ := getNum_of_fieldOK (hv.1 "offense_away" (by simp [EXPECTED_INPUT_KEYS]))
        obtain ⟨x4, h4⟩ := getNum_of_fieldOK (hv.1 "defense_away" (by simp [EXPECTED_INPUT_KEYS]))
        obtain ⟨x5, h5⟩ := getNum_of_fieldOK (hv.1 "home_field_points" (by simp [EXPECTED_INPUT_KEYS]))
        obtain ⟨x6, h6⟩ := getNum_of_fieldOK (hv.1 "rest_diff_days" (by simp [EXPECTED_INPUT_KEYS]))
        obtain ⟨x7, h7⟩ := getNum_of_fieldOK (hv.1 "away_travel_miles" (by simp [EXPECTED_INPUT_KEYS]))
        obtain ⟨x8, h8⟩ := getNum_of_fieldOK (hv.1 "qb_home_delta" (by simp [EXPECTED_INPUT_KEYS]))
        obtain ⟨x9, h9⟩ := getNum_of_fieldOK (hv.1 "qb_away_delta" (by simp [EXPECTED_INPUT_KEYS]))
        obtain ⟨x10, h10⟩ := getNum_of_fieldOK (hv.1 "key_injuries_home" (by simp [EXPECTED_INPUT_KEYS]))
        obtain ⟨x11, h11⟩ := getNum_of_fieldOK (hv.1 "key_injuries_away" (by simp [EXPECTED_INPUT_KEYS]))
        obtain ⟨x12, h12⟩ := getNum_of_fieldOK (hv.1 "wind_mph" (by simp [EXPECTED_INPUT_KEYS]))
        obtain ⟨x13, h13⟩ := getNum_of_fieldOK (hv.1 "pass_rate_home" (by simp [EXPECTED_INPUT_KEYS]))
        obtain ⟨x14, h14⟩ := getNum_of_fieldOK (hv.1 "pass_rate_away" (by simp [EXPECTED_INPUT_KEYS]))
        obtain ⟨y1, g1⟩ := getNum_of_fieldOK (hv.2 "spread" (by simp [EXPECTED_MARKET_KEYS]))
        obtain ⟨y2, g2⟩ := getNum_of_fieldOK (hv.2 "odds_home" (by simp [EXPECTED_MARKET_KEYS]))
        obtain ⟨y3, g3⟩ := getNum_of_fieldOK (hv.2 "odds_away" (by simp [EXPECTED_MARKET_KEYS]))
        have hpi : parseInputs di =
            some ⟨x1, x2, x3, x4, x5, x6, x7, x8, x9, x10, x11, x12, x13, x14⟩ := by
          unfold parseInputs
          rw [h1, h2, h3, h4, h5, h6, h7, h8, h9, h10, h11, h12, h13, h14]
          simp only [Option.bind_eq_bind', Option.some_bind']
          rfl
        have hpm : parseMarket dm = some ⟨y1, y2, y3⟩ := by
          unfold parseMarket
          rw [g1, g2, g3]
          simp only [Option.bind_eq_bind', Option.some_bind']
          rfl
        refine ⟨(⟨x1, x2, x3, x4, x5, x6, x7, x8, x9, x10, x11, x12, x13, x14⟩,
          ⟨y1, y2, y3⟩), ?_⟩
        unfold parsePayload
        simp only [Option.bind_eq_bind', Option.some_bind', hpi, hpm]
        rfl
  · intro i m erf _ hj
    exact checked_eq_run erf i m (sigma_adj_ne_zero i (sigma_ne_zero i hj))

def c2GoodPayload : Payload :=
  ⟨some [("offense_home", .num 0), ("defense_home", .num 0),
         ("offense_away", .num 0), ("defense_away", .num 0),
         ("home_field_points", .num 0), ("rest_diff_days", .num 0),
         ("away_travel_miles", .num 0), ("qb_home_delta", .num 0),
         ("qb_away_delta", .num 0), ("key_injuries_home", .num 0),
         ("key_injuries_away", .num 0), ("wind_mph", .num 0),
         ("pass_rate_home", .num 0), ("pass_rate_away", .num 0)],
   some [("spread", .num 0), ("odds_home", .num 0), ("odds_away", .num 0)]⟩

noncomputable def c2GoodInp : Inputs :=
  ⟨((0 : ℚ) : ℝ), ((0 : ℚ) : ℝ), ((0 : ℚ) : ℝ), ((0 : ℚ) : ℝ), ((0 : ℚ) : ℝ),
   ((0 : ℚ) : ℝ), ((0 : ℚ) : ℝ), ((0 : ℚ) : ℝ), ((0 : ℚ) : ℝ), ((0 : ℚ) : ℝ),
   ((0 : ℚ) : ℝ), ((0 : ℚ) : ℝ), ((0 : ℚ) : ℝ), ((0 : ℚ) : ℝ)⟩

noncomputable def c2GoodMkt : Market :=
  ⟨((0 : ℚ) : ℝ), ((0 : ℚ) : ℝ), ((0 : ℚ) : ℝ)⟩

/-- Witness for C2 (amended): a concrete accepted payload with non-zero
injury multiplier runs without fault. -/
theorem claim2_witness :
    run_cfb_model_v2_checked (fun _ => 0) c2GoodInp c2GoodMkt =
      some (run_cfb_model_v2 (fun _ => 0) c2GoodInp c2GoodMkt) :=
  (claim2_no_arith_fault_amended c2GoodPayload (by decide)).2
    c2GoodInp c2GoodMkt _ rfl (by norm_num [injTotal, c2GoodInp])

def c2BadPayload : Payload :=
  ⟨some [("offense_home", .num 0), ("defense_home", .num 0),
         ("offense_away", .num 0), ("defense_away", .num 0),
         ("home_field_points", .num 0), ("rest_diff_days", .num 0),
         ("away_travel_miles", .num 0), ("qb_home_delta", .num 0),
         ("qb_away_delta", .num 0), ("key_injuries_home", .num (-100/3)),
         ("key_injuries_away", .num 0), ("wind_mph", .num 0),
         ("pass_rate_home", .num 0), ("pass_rate_away", .num 0)],
   some [("spread", .num 0), ("odds_home", .num 0), ("odds_away", .num 0)]⟩

noncomputable def c2BadInp : Inputs :=
  ⟨((0 : ℚ) : ℝ), ((0 : ℚ) : ℝ), ((0 : ℚ) : ℝ), ((0 : ℚ) : ℝ), ((0 : ℚ) : ℝ),
   ((0 : ℚ) : ℝ), ((0 : ℚ) : ℝ), ((0 : ℚ) : ℝ), ((0 : ℚ) : ℝ),
   ((-100/3 : ℚ) : ℝ), ((0 : ℚ) : ℝ), ((0 : ℚ) : ℝ), ((0 : ℚ) : ℝ),
   ((0 : ℚ) : ℝ)⟩

noncomputable def c2BadMkt : Market :=
  ⟨((0 : ℚ) : ℝ), ((0 : ℚ) : ℝ), ((0 : ℚ) : ℝ)⟩

theorem sigma_c2Bad : sigma c2BadInp = 0 := by
  unfold sigma sigma_base injTotal
  rw [windExcess_eq_zero (by norm_num [c2BadInp])]
  norm_num [c2BadInp]

theorem c2BadPayload_valid : validate_input c2BadPayload = true :=
  (validate_input_characterization c2BadPayload).mpr
    ⟨_, _, rfl, rfl,
      by
        intro k hk
        fin_cases hk <;>
          first
          | exact ⟨0, rfl, by norm_num, by norm_num⟩
          | exact ⟨-100/3, rfl, by norm_num, by norm_num⟩,
      by
        intro k hk
        fin_cases hk <;> exact ⟨0, rfl, by norm_num, by norm_num⟩⟩

/-- Counterexample to C2 as stated: `key_injuries_home = -100/3` passes the
validator, yet it zeroes the adjusted sigma and the checked run hits a zero
divisor in `z_cover`. -/
theorem claim2_counterexample :
    validate_input c2BadPayload = true ∧
    parsePayload c2BadPayload = some (c2BadInp, c2BadMkt) ∧
    run_cfb_model_v2_checked (fun _ => 0) c2BadInp c2BadMkt = none := by
  refine ⟨c2BadPayload_valid, rfl, ?_⟩
  have hσ : sigma_adj c2BadInp = 0 := by
    unfold sigma_adj
    rw [sigma_c2Bad, zero_div]
  unfold run_cfb_model_v2_checked
  rw [hσ]
  simp [divC]

/-! ### C1: the §8 scenario -/

noncomputable def scenarioInputs : Inputs :=
  ⟨35, 20, 28, 24, 2.5, 0, 300, 0, 0, 0, 0, 5, 0.55, 0.55⟩

noncomputable def scenarioMarket : Market := ⟨-3, -150, 130⟩

theorem em_scenario : em scenarioInputs = 22.14 := by
  unfold em matchup_gap b_matchup b_hfa b_rest b_travel b_qb b_injury b_weather
  norm_num [scenarioInputs]

theorem sigma_scenario : sigma scenarioInputs = 14.0 := by
  unfold sigma sigma_base injTotal
  rw [windExcess_eq_zero (by norm_num [scenarioInputs])]
  norm_num [scenarioInputs]

/-- Counterexample to C1 as stated: `n_eff = min(12, 1/(1-0.834421))` is
`1000000/165579 ≈ 6.04`, not 12, and the scenario variance is not
`(14/sqrt 3)^2 = 196/3`. -/
theorem claim1_counterexample :
    n_eff ≠ 12 ∧
    (run_cfb_model_v2 (fun _ => 0) scenarioInputs scenarioMarket).variance ≠
      196 / 3 := by
  constructor
  · rw [n_eff_eq]
    norm_num
  · have hv : (run_cfb_model_v2 (fun _ => 0) scenarioInputs
        scenarioMarket).variance = sigma_adj scenarioInputs ^ 2 := rfl
    rw [hv, sigma_adj_sq, sigma_scenario, n_eff_div4]
    norm_num

/-- C1 (amended): for the §8 scenario input, `run_cfb_model_v2` computes
`matchup_gap = 3`, `em = 22.14`, raw sigma `14` with no wind/injury inflation,
but `n_eff = 1000000/165579 ≈ 6.0394` (the cap at 12 does not bind), so the
adjusted sigma is `14/sqrt(n_eff/4) ≈ 11.39` (variance `8113371/62500 ≈
129.81`), `z_cover ≈ 2.2065`, `p_home_cover ≈ 0.986` (at least 0.985 for any
monotone error function with the standard values at 1.3 and 1.55, bounded by
1), and the recommendation side is `home`. -/
theorem claim1_scenario_amended (erf : ℝ → ℝ)
    (hmono : Monotone erf)
    (h155 : (0.97 : ℝ) ≤ erf 1.55)
    (h13 : (0.25 : ℝ) ≤ erf 1.3)
    (hub : ∀ x, erf x ≤ 1) :
    matchup_gap scenarioInputs = 3 ∧
    em scenarioInputs = 22.14 ∧
    sigma scenarioInputs = 14.0 ∧
    n_eff = 1000000 / 165579 ∧
    (run_cfb_model_v2 erf scenarioInputs scenarioMarket).variance =
      8113371 / 62500 ∧
    (11.39 ≤ sigma_adj scenarioInputs ∧ sigma_adj scenarioInputs ≤ 11.40) ∧
    (2.206 ≤ z_cover scenarioInputs scenarioMarket ∧
      z_cover scenarioInputs scenarioMarket ≤ 2.207) ∧
    (0.985 ≤
        (run_cfb_model_v2 erf scenarioInputs scenarioMarket).prob_home_cover ∧
      (run_cfb_model_v2 erf scenarioInputs scenarioMarket).prob_home_cover
        ≤ 1) ∧
    (run_cfb_model_v2 erf scenarioInputs scenarioMarket).rec_out.side =
      Side.home := by
  have hgap : matchup_gap scenarioInputs = 3 := by
    unfold matchup_gap
    norm_num [scenarioInputs]
  have hem : em scenarioInputs = 22.14 := em_scenario
  have hσ : sigma scenarioInputs = 14.0 := sigma_scenario
  have hq1 := sqrtq_lb
  have hq2 := sqrtq_ub
  have hq0 := sqrtq_pos
  have hsa : sigma_adj scenarioInputs = 14.0 / Real.sqrt (n_eff / 4.0) := by
    unfold sigma_adj
    rw [hσ]
  have hsal : 11.39 ≤ sigma_adj scenarioInputs := by
    rw [hsa, le_div_iff hq0]
    nlinarith
  have hsau : sigma_adj scenarioInputs ≤ 11.40 := by
    rw [hsa, div_le_iff hq0]
    nlinarith
  have hvar : (run_cfb_model_v2 erf scenarioInputs scenarioMarket).variance =
      8113371 / 62500 := by
    have h0 : (run_cfb_model_v2 erf scenarioInputs scenarioMarket).variance =
        sigma_adj scenarioInputs ^ 2 := rfl
    rw [h0, sigma_adj_sq, hσ, n_eff_div4]
    norm_num
  have hspread : scenarioMarket.spread = (-3 : ℝ) := rfl
  have hz : z_cover scenarioInputs scenarioMarket =
      25.14 * Real.sqrt (n_eff / 4.0) / 14.0 := by
    unfold z_cover
    rw [hem, hsa, hspread, div_div_eq_mul_div]
    norm_num
  have hzl : 2.206 ≤ z_cover scenarioInputs scenarioMarket := by
    rw [hz, le_div_iff (by norm_num : (0 : ℝ) < 14.0)]
    nlinarith
  have hzu : z_cover scenarioInputs scenarioMarket ≤ 2.207 := by
    rw [hz, div_le_iff (by norm_num : (0 : ℝ) < 14.0)]
    nlinarith
  have hs2l : (1.41421 : ℝ) ≤ Real.sqrt 2.0 :=
    (Real.le_sqrt (by norm_num) (by norm_num)).mpr (by norm_num)
  have hs2u : Real.sqrt 2.0 ≤ 1.41422 :=
    Real.sqrt_le_iff.mpr ⟨by norm_num, by norm_num⟩
  have hs2pos : (0 : ℝ) < Real.sqrt 2.0 := lt_of_lt_of_le (by norm_num) hs2l
  have harg : (1.55 : ℝ) ≤
      z_cover scenarioInputs scenarioMarket / Real.sqrt 2.0 := by
    rw [le_div_iff hs2pos]
    nlinarith
  have hpcdef : (run_cfb_model_v2 erf scenarioInputs
      scenarioMarket).prob_home_cover =
      0.5 * (1.0 + erf (z_cover scenarioInputs scenarioMarket /
        Real.sqrt 2.0)) := rfl
  have hpc : 0.985 ≤ (run_cfb_model_v2 erf scenarioInputs
      scenarioMarket).prob_home_cover := by
    rw [hpcdef]
    have he : (0.97 : ℝ) ≤ erf (z_cover scenarioInputs scenarioMarket /
        Real.sqrt 2.0) := le_trans h155 (hmono harg)
    linarith
  have hpcu : (run_cfb_model_v2 erf scenarioInputs
      scenarioMarket).prob_home_cover ≤ 1 := by
    rw [hpcdef]
    have he := hub (z_cover scenarioInputs scenarioMarket / Real.sqrt 2.0)
    linarith
  have hdecH : dec_home scenarioMarket = 5 / 3 := by
    show _american_to_decimal (-150 : ℝ) = 5 / 3
    unfold _american_to_decimal
    rw [if_neg (by norm_num), if_pos (by norm_num),
      abs_of_neg (by norm_num : (-150 : ℝ) < 0)]
    norm_num
  have hdecA : dec_away scenarioMarket = 2.3 := by
    show _american_to_decimal (130 : ℝ) = 2.3
    unfold _american_to_decimal
    rw [if_pos (by norm_num)]
    norm_num
  have hwin_arg : (1.3 : ℝ) ≤
      em scenarioInputs / sigma_adj scenarioInputs / Real.sqrt 2.0 := by
    have h1 : em scenarioInputs / sigma_adj scenarioInputs =
        22.14 * Real.sqrt (n_eff / 4.0) / 14.0 := by
      rw [hem, hsa, div_div_eq_mul_div]
    rw [h1, le_div_iff hs2pos, le_div_iff (by norm_num : (0 : ℝ) < 14.0)]
    nlinarith
  have hpdef : p_home_win erf scenarioInputs =
      0.5 * (1.0 + erf (em scenarioInputs / sigma_adj scenarioInputs /
        Real.sqrt 2.0)) := rfl
  have hp : (0.625 : ℝ) ≤ p_home_win erf scenarioInputs := by
    rw [hpdef]
    have he := le_trans h13 (hmono hwin_arg)
    linarith
  have hp1 : p_home_win erf scenarioInputs ≤ 1 :=
    p_home_win_le_one erf scenarioInputs hub
  have hevH : 0.03 ≤ ev_home erf scenarioInputs scenarioMarket := by
    unfold ev_home
    rw [hdecH]
    linarith
  have hevA : ev_away erf scenarioInputs scenarioMarket ≤
      ev_home erf scenarioInputs scenarioMarket := by
    unfold ev_away ev_home p_away_win
    rw [hdecH, hdecA]
    linarith
  have hside : (run_cfb_model_v2 erf scenarioInputs
      scenarioMarket).rec_out.side = Side.home := by
    rw [rec_out_run]
    unfold recOf
    rw [if_pos (Or.inl hevH), if_pos hevA]
  exact ⟨hgap, hem, hσ, n_eff_eq, hvar, ⟨hsal, hsau⟩, ⟨hzl, hzu⟩,
    ⟨hpc, hpcu⟩, hside⟩

/-- A clamp function: a concrete monotone function bounded by 1 with the
required values, witnessing that the hypotheses of the amended C1 theorem are
satisfiable. -/
noncomputable def clampErf (x : ℝ) : ℝ := max (-1) (min 1 x)

theorem clampErf_monotone : Monotone clampErf := fun _ _ hab => by
  unfold clampErf
  exact max_le_max le_rfl (min_le_min le_rfl hab)

/-- Witness for C1 (amended): with the clamp error function, the scenario
recommendation side is `home`. -/
theorem claim1_witness :
    (run_cfb_model_v2 clampErf scenarioInputs scenarioMarket).rec_out.side =
      Side.home :=
  (claim1_scenario_amended clampErf clampErf_monotone
    (by
      unfold clampErf
      rw [min_eq_left (by norm_num), max_eq_right (by norm_num)]
      norm_num)
    (by
      unfold clampErf
      rw [min_eq_left (by norm_num), max_eq_right (by norm_num)]
      norm_num)
    (fun x => by
      unfold clampErf
      exact max_le (by norm_num) (min_le_left _ _))).2.2.2.2.2.2.2.2

end CFB
